import Mathlib

/-!
Formal model of the TALANTA verification and trust pipeline.

The definitions below are a shallow embedding of the Python sources:

* backend/app/services/ocr_service.py   (OCRService: parsing and validation)
* backend/app/services/graph_service.py (GraphService.verify_skill)
* backend/app/models/verification.py    (Verification record and its enums)
* backend/app/models/user.py            (User, trust-bearing view)
* backend/app/tasks/ocr_tasks.py        (the orchestrator _process_verification_async)

All texts flowing through this pipeline are ASCII, so Python string and
regex operations are modelled over lists of characters with ASCII
semantics.  The OCR extractor itself is an external capability returning
a list of text fragments; runs of the orchestrator are therefore
parameterised by the fragment list that extract_text produced for the
fetched bytes, and by whether the object-store fetch succeeded.
Timestamp columns (created_at, updated_at, verified_at) are wall-clock
environmental values inspected by no claim and are omitted from the
record model; the confidence and bounding-box parts of OCR fragments are
likewise unused by parsing and validation (only the text field is read)
and are dropped from the fragment model.
-/

namespace Talanta

/-! ### Character classes with Python re semantics on the ASCII range -/

/-- Python regex word character (ASCII range): letter, digit or underscore. -/
def isWordChar (c : Char) : Bool := c.isAlpha || c.isDigit || c == '_'

/-- Python regex whitespace class (ASCII range). -/
def isWs (c : Char) : Bool :=
  c == ' ' || c == '\t' || c == '\n' || c == '\r' || c == '\x0b' || c == '\x0c'

/-- A word boundary holds before a word character exactly when the preceding
character (none at the start of the text) is not itself a word character. -/
def noWord : Option Char → Bool
  | none => true
  | some c => !(isWordChar c)

/-! ### Substring and prefix tests modelling the Python in operator -/

def prefixChars : List Char → List Char → Bool
  | [], _ => true
  | _ :: _, [] => false
  | a :: as, b :: bs => a == b && prefixChars as bs

/-- Python substring containment of the needle in the haystack. -/
def containsSub (needle : List Char) : List Char → Bool
  | [] => prefixChars needle []
  | c :: t => prefixChars needle (c :: t) || containsSub needle t

/-- Python str.strip: drop whitespace from both ends. -/
def pyStrip (s : String) : String :=
  String.mk (((s.data.dropWhile isWs).reverse.dropWhile isWs).reverse)

/-- Worker for pyTitle; the flag records whether the previous character was a
letter. -/
def pyTitleGo : Bool → List Char → List Char
  | _, [] => []
  | prevAlpha, c :: rest =>
    if c.isAlpha then
      (if prevAlpha then c.toLower else c.toUpper) :: pyTitleGo true rest
    else
      c :: pyTitleGo false rest

/-- Python str.title on ASCII text: a letter is uppercased after a non-letter
and lowercased after a letter. -/
def pyTitle (s : String) : String := String.mk (pyTitleGo false s.data)

/-- Python truthiness of an optional string: None and the empty string are
falsy, every other string is truthy. -/
def truthy : Option String → Bool
  | none => false
  | some s => !(s == "")

/-- Leftmost-match scan as performed by re.search: try the matcher at every
position from left to right, threading the previous character so matchers can
test word boundaries. -/
def scanFirst (f : Option Char → List Char → Option String) :
    Option Char → List Char → Option String
  | _, [] => none
  | prev, c :: rest =>
    match f prev (c :: rest) with
    | some r => some r
    | none => scanFirst f (some c) rest

/-! ### Field parser for NATIONAL_ID documents (OCRService.parse_kenyan_id) -/

/-- Matcher at one position for the id-number pattern of parse_kenyan_id:
exactly eight digits enclosed in word boundaries. -/
def matchID8 (prev : Option Char) (s : List Char) : Option String :=
  let pre := s.take 8
  if noWord prev && pre.length == 8 && pre.all Char.isDigit && noWord (s.get? 8) then
    some (String.mk pre)
  else none

def isDateSep (c : Char) : Bool := c == '/' || c == '-'

/-- Matcher at one position for the date pattern of parse_kenyan_id: two
digits, a slash or dash, two digits, a slash or dash, four digits, with no
boundary requirement. -/
def matchDOB (_ : Option Char) (s : List Char) : Option String :=
  match s with
  | d1 :: d2 :: x1 :: d3 :: d4 :: x2 :: d5 :: d6 :: d7 :: d8 :: _ =>
    if [d1, d2, d3, d4, d5, d6, d7, d8].all Char.isDigit
        && isDateSep x1 && isDateSep x2 then
      some (String.mk [d1, d2, x1, d3, d4, x2, d5, d6, d7, d8])
    else none
  | _ => none

/-- Character class of the all-caps name pattern: uppercase letter or
whitespace. -/
def nameClass (c : Char) : Bool := c.isUpper || isWs c

/-- Greedy match end for the all-caps name pattern.  Given the maximal run of
name-class characters that follows the first letter and the character that
follows that run, return the largest index j inside the run whose character is
an uppercase letter followed by a word boundary; indices below 1 are excluded
because the middle part of the pattern needs at least one character. -/
def nameEnd (mid : List Char) (after : Option Char) : Option Nat :=
  (List.range mid.length).foldl
    (fun acc j =>
      if decide (1 ≤ j)
          && (match mid.get? j with | some c => c.isUpper | none => false)
          && noWord ((mid.get? (j + 1)).orElse (fun _ => after)) then
        some j
      else acc)
    none

/-- All non-overlapping greedy matches of the all-caps name pattern of
parse_kenyan_id, scanning left to right as re.findall does: an uppercase
letter, then at least one uppercase letter or whitespace, ending at an
uppercase letter, the whole enclosed in word boundaries.  The fuel argument
merely bounds the recursion depth; every step consumes at least one character,
so a fuel of one more than the text length is never exhausted. -/
def nameFindAllGo : Nat → Option Char → List Char → List String
  | 0, _, _ => []
  | _ + 1, _, [] => []
  | fuel + 1, prev, c :: rest =>
    if noWord prev && c.isUpper then
      let mid := rest.takeWhile nameClass
      let after := (rest.drop mid.length).head?
      match nameEnd mid after with
      | some j =>
          String.mk (c :: rest.take (j + 1)) ::
            nameFindAllGo fuel (rest.get? j) (rest.drop (j + 1))
      | none => nameFindAllGo fuel (some c) rest
    else nameFindAllGo fuel (some c) rest

def nameFindAll (prev : Option Char) (s : List Char) : List String :=
  nameFindAllGo (s.length + 1) prev s

/-- Python max with a length key: the first string of maximal length wins. -/
def longestStr (l : List String) : Option String :=
  l.foldl
    (fun acc m =>
      match acc with
      | none => some m
      | some b => if b.length < m.length then some m else acc)
    none

structure ParsedID where
  id_number : Option String
  full_name : Option String
  dob : Option String
deriving DecidableEq

/-- OCRService.parse_kenyan_id: join the fragment texts with spaces, then
extract the first eight-digit number, the longest all-caps run as the full
name (stripped), and an optional date of birth. -/
def parse_kenyan_id (fragments : List String) : ParsedID :=
  let all_text := (String.intercalate " " fragments).data
  { id_number := scanFirst matchID8 none all_text
    full_name := (longestStr (nameFindAll none all_text)).map pyStrip
    dob := scanFirst matchDOB none all_text }

/-! ### Field parser for certificate documents (OCRService.parse_certificate) -/

/-- Character class of the captured serial token: uppercase letter, digit,
slash or dash. -/
def serialClass (c : Char) : Bool := c.isUpper || c.isDigit || c == '/' || c == '-'

/-- Try one label alternative of the first serial pattern at the current
position: the label, then any run of colons and whitespace, then a non-empty
capture of serial-class characters. -/
def labelCapture (lab : List Char) (s : List Char) : Option String :=
  if prefixChars lab s then
    let r := (s.drop lab.length).dropWhile (fun c => c == ':' || isWs c)
    let cap := r.takeWhile serialClass
    if cap.isEmpty then none else some (String.mk cap)
  else none

/-- Matcher at one position for the first serial pattern: the alternatives
SERIAL, SER and NO are tried in that order, as the regex engine backtracks
through the alternation. -/
def matchSerial1 (_ : Option Char) (s : List Char) : Option String :=
  match labelCapture "SERIAL".data s with
  | some r => some r
  | none =>
    match labelCapture "SER".data s with
    | some r => some r
    | none => labelCapture "NO".data s

/-- Take exactly n characters all satisfying p, returning them and the rest. -/
def exactRun (p : Char → Bool) (n : Nat) (s : List Char) :
    Option (List Char × List Char) :=
  let pre := s.take n
  if pre.length == n && pre.all p then some (pre, s.drop n) else none

/-- One size choice of the second serial pattern: a uppercase letters, a
slash, b digits, a slash, four digits, then a word boundary. -/
def serial2At (a b : Nat) (s : List Char) : Option String :=
  match exactRun Char.isUpper a s with
  | none => none
  | some (ls, r1) =>
    match r1 with
    | '/' :: r2 =>
      (match exactRun Char.isDigit b r2 with
       | none => none
       | some (ds, r3) =>
         match r3 with
         | '/' :: r4 =>
           (match exactRun Char.isDigit 4 r4 with
            | none => none
            | some (ys, r5) =>
              if noWord r5.head? then
                some (String.mk (ls ++ '/' :: (ds ++ '/' :: ys)))
              else none)
         | _ => none)
    | _ => none

/-- Matcher at one position for the second serial pattern, a code shaped like
board/year/sequence between word boundaries.  The greedy counted repetitions
try the letter count from 4 down to 2 and, within each, the digit count from
4 down to 2, matching the backtracking order of the regex engine. -/
def matchSerial2 (prev : Option Char) (s : List Char) : Option String :=
  if noWord prev then
    ([(4, 4), (4, 3), (4, 2), (3, 4), (3, 3), (3, 2), (2, 4), (2, 3), (2, 2)] :
        List (Nat × Nat)).foldl
      (fun acc ab =>
        match acc with
        | some r => some r
        | none => serial2At ab.1 ab.2 s)
      none
  else none

/-- Matcher at one position for the third serial pattern: the literal CERT-,
then a non-empty maximal digit run, enclosed in word boundaries. -/
def matchSerial3 (prev : Option Char) (s : List Char) : Option String :=
  if noWord prev && prefixChars "CERT-".data s then
    let r := s.drop 5
    let ds := r.takeWhile Char.isDigit
    if !ds.isEmpty && noWord ((r.drop ds.length).head?) then
      some (String.mk ("CERT-".data ++ ds))
    else none
  else none

/-- Tail of the skill pattern after IN or OF: at least one whitespace
character, then a non-empty capture of uppercase letters and whitespace.  When
the character after the maximal whitespace run is outside the capture class
the engine backtracks one whitespace character into the capture, which then
consists of that single whitespace character. -/
def skillTail (r : List Char) : Option String :=
  let w := r.takeWhile isWs
  if w.isEmpty then none
  else
    let cap := (r.drop w.length).takeWhile nameClass
    if !cap.isEmpty then some (String.mk cap)
    else if 2 ≤ w.length then some (String.mk ((r.drop (w.length - 1)).take 1))
    else none

/-- After the CERTIFICATE or DIPLOMA label: at least one whitespace character,
then IN or OF, then the skill tail. -/
def skillAfterLabel (s : List Char) : Option String :=
  let w := s.takeWhile isWs
  if w.isEmpty then none
  else
    let r := s.drop w.length
    if prefixChars "IN".data r then skillTail (r.drop 2)
    else if prefixChars "OF".data r then skillTail (r.drop 2)
    else none

/-- Matcher at one position for the skill pattern: CERTIFICATE or DIPLOMA,
whitespace, IN or OF, whitespace, then the captured course name. -/
def matchSkill (_ : Option Char) (s : List Char) : Option String :=
  match (if prefixChars "CERTIFICATE".data s then skillAfterLabel (s.drop 11) else none) with
  | some r => some r
  | none => if prefixChars "DIPLOMA".data s then skillAfterLabel (s.drop 7) else none

structure ParsedCert where
  cert_type : Option String
  serial : Option String
  skill : Option String
  institution : Option String
deriving DecidableEq

def certTypes : List String := ["CERTIFICATE", "DIPLOMA", "LICENSE", "TRANSCRIPT"]

def institutionKeywords : List String :=
  ["INSTITUTE", "COLLEGE", "UNIVERSITY", "TVET", "POLYTECHNIC"]

/-- OCRService.parse_certificate: join the fragments with spaces, uppercase
the text for the pattern searches, and extract the certificate type (first of
a fixed vocabulary contained in the text), the serial (first of three patterns
that matches anywhere, in pattern order), the skill (stripped and
title-cased), and the institution (the first fragment containing an
institution keyword, stripped but in original case). -/
def parse_certificate (fragments : List String) : ParsedCert :=
  let all_text := (String.intercalate " " fragments).data
  let up := all_text.map Char.toUpper
  { cert_type := certTypes.find? (fun t => containsSub t.data up)
    serial :=
      match scanFirst matchSerial1 none up with
      | some r => some r
      | none =>
        match scanFirst matchSerial2 none up with
        | some r => some r
        | none => scanFirst matchSerial3 none up
    skill := (scanFirst matchSkill none up).map (fun s => pyTitle (pyStrip s))
    institution :=
      (fragments.find? (fun f =>
        institutionKeywords.any (fun k => containsSub k.data (f.data.map Char.toUpper)))).map
        pyStrip }

/-! ### Cross-validator (OCRService.validate_document) -/

structure ValidationResult where
  name_match : Bool
  confidence : ℚ
  issues : List String
deriving DecidableEq

/-- OCRService.validate_document.  The name match uppercases the supplied user
name and the parsed full name and checks substring containment in either
direction; it is computed only when the user name is truthy.  The source also
binds an unused placeholder local for a certificate-side name, which is dead
code and not modelled.  The fixed 0.85 confidence is modelled as a rational. -/
def validate_document (parsed_id : ParsedID) (parsed_cert : ParsedCert)
    (user_name : Option String) : ValidationResult :=
  let id_name := (parsed_id.full_name.getD "").data.map Char.toUpper
  let userTruthy := truthy user_name
  let un := (user_name.getD "").data.map Char.toUpper
  let nm := userTruthy && (containsSub un id_name || containsSub id_name un)
  { name_match := nm
    confidence := if nm then (85 : ℚ) / 100 else 0
    issues :=
      (if truthy parsed_id.id_number then [] else ["ID number not found"]) ++
      (if truthy parsed_cert.serial then [] else ["Certificate serial number not found"]) ++
      (if !nm && userTruthy then ["Name mismatch between ID and user profile"] else []) }

/-! ### Data model (models/verification.py and models/user.py) -/

inductive DocumentType
  | NATIONAL_ID
  | CERTIFICATE
  | DIPLOMA
  | LICENSE
  | TRANSCRIPT
deriving DecidableEq

inductive VerificationStatus
  | PENDING
  | PROCESSING
  | VERIFIED
  | REJECTED
deriving DecidableEq

/-- The verifications row.  Fields are the columns read or written by the
pipeline; timestamp columns are omitted (see the header comment).  Database
identifiers are modelled as naturals: the source renders them as UUID strings,
an injective encoding that no claim depends on. -/
structure Verification where
  id : Nat
  user_id : Nat
  document_type : DocumentType
  s3_url : String
  ocr_data : Option (List String)
  extracted_name : Option String
  extracted_serial : Option String
  extracted_skill : Option String
  extracted_institution : Option String
  status : VerificationStatus
  rejection_reason : Option String
  trust_score_delta : Int
  verified_by : Option String
deriving DecidableEq

/-- The users row, restricted to the columns this pipeline reads or writes. -/
structure User where
  id : Nat
  full_name : Option String
  trust_score : Int
  is_verified : Bool
deriving DecidableEq

/-! ### Skill graph (GraphService.verify_skill) -/

/-- The Neo4j graph restricted to what the pipeline touches: user nodes,
skill nodes, and CLAIMS and VERIFIED_IN relationships, each a pair of the user
id and the skill name.  Relationship lists are multisets because the Cypher
CREATE clause never deduplicates; relationship properties (timestamps and the
method tag) are environmental metadata inspected by no claim. -/
structure Graph where
  users : List Nat
  skills : List String
  claims : List (Nat × String)
  verified : List (Nat × String)
deriving DecidableEq

/-- GraphService.verify_skill runs a single Cypher statement: MATCH the CLAIMS
relationship between the given user and skill, DELETE it, and CREATE a
VERIFIED_IN relationship.  The statement produces one row per matching CLAIMS
relationship; with zero rows the DELETE and CREATE clauses process nothing, so
no VERIFIED_IN relationship is created when no CLAIMS relationship exists. -/
def verify_skill (g : Graph) (user_id : Nat) (skill_name : String) : Graph :=
  let matched := g.claims.filter (fun e => decide (e = (user_id, skill_name)))
  { g with
    claims := g.claims.filter (fun e => !(decide (e = (user_id, skill_name))))
    verified := g.verified ++ matched.map (fun _ => (user_id, skill_name)) }

/-- Iterated promotion of the same user and skill pair. -/
def promoteN (g : Graph) (uid : Nat) (sk : String) : Nat → Graph
  | 0 => g
  | n + 1 => verify_skill (promoteN g uid sk n) uid sk

/-- Occurrences of an edge in an edge list. -/
def countIn (a : Nat × String) : List (Nat × String) → Nat
  | [] => 0
  | b :: l => (if b = a then 1 else 0) + countIn a l

/-! ### Orchestrator (_process_verification_async in tasks/ocr_tasks.py) -/

/-- The relational store visible to one job: the verification row selected by
the job id (none when the id matches no row) and the owning user row. -/
structure RelDB where
  verification : Option Verification
  user : User
deriving DecidableEq

/-- Environment of one run: whether the object-store get succeeds, and the
fragment texts that extract_text returns for the fetched bytes. -/
structure RunInput where
  s3Ok : Bool
  fragments : List String
deriving DecidableEq

/-- The dictionary returned by the task: either an error payload or the final
status with the trust delta stored on the record. -/
inductive RunResult
  | err (msg : String)
  | done (status : VerificationStatus) (trust_score_delta : Int)
deriving DecidableEq

/-- One run of the task: the successive relational commits (each a snapshot
of the verification row and user row written by db.commit), the graph state
after the run, and the returned payload. -/
structure RunOutput where
  commits : List RelDB
  graph : Graph
  result : RunResult
deriving DecidableEq

/-- Truthiness test the orchestrator applies to the extracted serial. -/
def serialTruthy (v : Verification) : Bool := truthy v.extracted_serial

/-- The type-dispatched parsing step: NATIONAL_ID documents go to
parse_kenyan_id, CERTIFICATE and DIPLOMA documents go to parse_certificate,
and every other document type is not parsed at all. -/
def parseDispatch (v : Verification) (fragments : List String) : Verification :=
  if v.document_type = DocumentType.NATIONAL_ID then
    let parsed := parse_kenyan_id fragments
    { v with extracted_name := parsed.full_name, extracted_serial := parsed.id_number }
  else if v.document_type = DocumentType.CERTIFICATE ∨
      v.document_type = DocumentType.DIPLOMA then
    let parsed := parse_certificate fragments
    { v with
      extracted_skill := parsed.skill
      extracted_serial := parsed.serial
      extracted_institution := parsed.institution }
  else v

/-- The verification row as it stands after the status update, the OCR store
and the parsing dispatch. -/
def dispatchedVer (v0 : Verification) (fragments : List String) : Verification :=
  parseDispatch
    { v0 with status := VerificationStatus.PROCESSING, ocr_data := some fragments }
    fragments

/-- Name adoption: for a NATIONAL_ID document with a truthy extracted name,
a user without a truthy stored name adopts the extracted name. -/
def adoptName (u : User) (v : Verification) : User :=
  if v.document_type = DocumentType.NATIONAL_ID ∧ truthy v.extracted_name then
    if truthy u.full_name then u else { u with full_name := v.extracted_name }
  else u

/-- The rejection reasons the validation block accumulates: only the missing
serial check ever appends. -/
def rejectionReasons (v : Verification) : List String :=
  if serialTruthy v then [] else ["Serial number not found in document"]

/-- The rejection reason string: the reasons joined by a semicolon and space,
or a fallback when the list is empty. -/
def rejectReason (reasons : List String) : String :=
  if reasons.isEmpty then "Validation failed" else String.intercalate "; " reasons

/-- The record mutation of the approved branch. -/
def verifiedVer (v : Verification) : Verification :=
  { v with
    status := VerificationStatus.VERIFIED
    verified_by := some "SYSTEM"
    trust_score_delta := 10 }

/-- The record mutation of the rejected branch. -/
def rejectedVer (v : Verification) : Verification :=
  { v with
    status := VerificationStatus.REJECTED
    rejection_reason := some (rejectReason (rejectionReasons v)) }

/-- The trust-ledger mutation of the approved branch: add 10 clamped at 100,
and flip the identity flag for NATIONAL_ID documents. -/
def ledger (u : User) (v : Verification) : User :=
  let u2 := { u with trust_score := min 100 (u.trust_score + 10) }
  if v.document_type = DocumentType.NATIONAL_ID then { u2 with is_verified := true } else u2

/-- Graph promotion guard of the approved branch: only a truthy extracted
skill triggers verify_skill. -/
def promoteIfSkill (g : Graph) (uid : Nat) (sk : Option String) : Graph :=
  match sk with
  | some s => if s = "" then g else verify_skill g uid s
  | none => g

/-- One invocation of _process_verification_async on the record selected by
the job id.  The run commits the PROCESSING transition first; a failed
object-store get rejects with a fixed reason; otherwise the text is extracted
and parsed by document type, the user may adopt the extracted name, and the
record is approved exactly when the extracted serial is truthy, crediting the
trust ledger and promoting the skill graph before the terminal commit. -/
def runJob (db : RelDB) (g : Graph) (inp : RunInput) : RunOutput :=
  match db.verification with
  | none => ⟨[], g, RunResult.err "Verification not found"⟩
  | some v0 =>
    let c1 : RelDB := ⟨some { v0 with status := VerificationStatus.PROCESSING }, db.user⟩
    if inp.s3Ok then
      let v3 := dispatchedVer v0 inp.fragments
      let u1 := adoptName db.user v3
      if serialTruthy v3 && (rejectionReasons v3).isEmpty then
        let v4 := verifiedVer v3
        let u2 := ledger u1 v4
        let g1 := promoteIfSkill g u2.id v4.extracted_skill
        ⟨[c1, ⟨some v4, u2⟩], g1,
          RunResult.done VerificationStatus.VERIFIED v4.trust_score_delta⟩
      else
        let v4 := rejectedVer v3
        ⟨[c1, ⟨some v4, u1⟩], g,
          RunResult.done VerificationStatus.REJECTED v4.trust_score_delta⟩
    else
      ⟨[c1,
        ⟨some { v0 with
                status := VerificationStatus.REJECTED
                rejection_reason := some "Failed to retrieve document from storage" },
          db.user⟩],
        g, RunResult.err "S3 download failed"⟩

/-- The relational state after a run: the last committed snapshot, or the
initial state when the run committed nothing. -/
def finalRel (db : RelDB) (o : RunOutput) : RelDB := o.commits.getLastD db

/-- The verification row after a run. -/
def finalVer (db : RelDB) (o : RunOutput) : Option Verification :=
  (finalRel db o).verification

/-- Combined relational and graph state threaded through repeated runs. -/
structure SysState where
  rel : RelDB
  graph : Graph
deriving DecidableEq

def runStep (st : SysState) (inp : RunInput) : SysState :=
  let o := runJob st.rel st.graph inp
  ⟨finalRel st.rel o, o.graph⟩

def runSeq (st : SysState) (inps : List RunInput) : SysState :=
  inps.foldl runStep st

def resultStatus : RunResult → Option VerificationStatus
  | RunResult.err _ => none
  | RunResult.done s _ => some s

/-! ### Concrete fixtures used by scenario theorems and witnesses -/

def emptyGraph : Graph := ⟨[], [], [], []⟩

/-- A freshly created verification row, as the upload collaborator inserts
it: PENDING, no extracted fields, zero trust delta, no reason. -/
def freshVer (vid uid : Nat) (dt : DocumentType) : Verification :=
  ⟨vid, uid, dt, "verifications/u/v.jpg", none, none, none, none, none,
    VerificationStatus.PENDING, none, 0, none⟩

def sampleUser : User := ⟨1, none, 0, false⟩

/-! ### Helper lemmas -/

theorem adoptName_trust (u : User) (v : Verification) :
    (adoptName u v).trust_score = u.trust_score := by
  unfold adoptName
  split
  · split <;> rfl
  · rfl

theorem ledger_trust (u : User) (v : Verification) :
    (ledger u v).trust_score = min 100 (u.trust_score + 10) := by
  unfold ledger
  split <;> rfl

theorem countIn_append (a : Nat × String) (l r : List (Nat × String)) :
    countIn a (l ++ r) = countIn a l + countIn a r := by
  induction l with
  | nil => simp [countIn]
  | cons b t ih => simp [countIn, ih, Nat.add_assoc]

theorem countIn_filter_ne (a : Nat × String) (l : List (Nat × String)) :
    countIn a (l.filter (fun e => !(decide (e = a)))) = 0 := by
  induction l with
  | nil => rfl
  | cons b t ih =>
    by_cases hb : b = a
    · simpa [List.filter_cons, hb] using ih
    · simpa [List.filter_cons, hb, countIn] using ih

theorem countIn_filter_eq_len (a : Nat × String) (l : List (Nat × String)) :
    (l.filter (fun e => decide (e = a))).length = countIn a l := by
  induction l with
  | nil => rfl
  | cons b t ih =>
    by_cases hb : b = a
    · simp [List.filter_cons, hb, countIn, ih]
      omega
    · simp [List.filter_cons, hb, countIn, ih]

theorem countIn_map_const (a : Nat × String) (l : List (Nat × String)) :
    countIn a (l.map (fun _ => a)) = l.length := by
  induction l with
  | nil => rfl
  | cons b t ih =>
    show (if a = a then 1 else 0) + countIn a (t.map (fun _ => a)) = t.length + 1
    rw [if_pos rfl, ih]
    omega

theorem verify_skill_counts (g : Graph) (uid : Nat) (sk : String) :
    countIn (uid, sk) (verify_skill g uid sk).claims = 0 ∧
    countIn (uid, sk) (verify_skill g uid sk).verified =
      countIn (uid, sk) g.verified + countIn (uid, sk) g.claims := by
  refine ⟨countIn_filter_ne _ _, ?_⟩
  show countIn (uid, sk)
      (g.verified ++ (g.claims.filter (fun e => decide (e = (uid, sk)))).map
        (fun _ => (uid, sk))) = _
  rw [countIn_append, countIn_map_const, countIn_filter_eq_len]

/-! ### Claim theorems -/

/-- C2: for a user and skill between which no CLAIMS edge exists, verify_skill
creates no VERIFIED_IN edge either; this refutes the claimed merge-style
upsert.  The graph holds the user node and the skill node but no edge, and
the promoter leaves the VERIFIED_IN edge list empty. -/
theorem c2_counterexample :
    (verify_skill ⟨[1], ["Plumbing"], [], []⟩ 1 "Plumbing").verified = [] := by
  decide

/-- C2 amended: when no CLAIMS edge exists between the user and the skill,
verify_skill is a no-op on the graph, so promotion does require a prior
claim. -/
theorem c2_no_claim_no_edge (g : Graph) (uid : Nat) (sk : String)
    (h : (uid, sk) ∉ g.claims) : verify_skill g uid sk = g := by
  have hm : g.claims.filter (fun e => decide (e = (uid, sk))) = [] := by
    refine List.filter_eq_nil_iff.mpr ?_
    intro a ha
    simp only [decide_eq_true_eq]
    exact fun hEq => h (hEq ▸ ha)
  have hf : g.claims.filter (fun e => !(decide (e = (uid, sk)))) = g.claims := by
    refine List.filter_eq_self.mpr ?_
    intro a ha
    simp only [Bool.not_eq_true', decide_eq_false_iff_not]
    exact fun hEq => h (hEq ▸ ha)
  unfold verify_skill
  rw [hm, hf]
  simp

theorem c2_witness :
    (1, "Masonry") ∉ (⟨[1], ["Masonry"], [], []⟩ : Graph).claims ∧
    verify_skill ⟨[1], ["Masonry"], [], []⟩ 1 "Masonry" = ⟨[1], ["Masonry"], [], []⟩ :=
  ⟨by decide, c2_no_claim_no_edge ⟨[1], ["Masonry"], [], []⟩ 1 "Masonry" (by decide)⟩

/-- C7: invoking the promoter twice does not yield exactly one VERIFIED_IN
edge for every pair; for a pair that was never claimed, two invocations yield
zero VERIFIED_IN edges. -/
theorem c7_counterexample :
    (verify_skill (verify_skill ⟨[2], ["Welding"], [], []⟩ 2 "Welding") 2 "Welding").verified
      = [] := by
  decide

/-- C7 amended: for a pair holding exactly one CLAIMS edge and no VERIFIED_IN
edge, invoking verify_skill any positive number of times yields exactly one
VERIFIED_IN edge and removes the CLAIMS edge; every invocation after the first
is a no-op on that pair, not an error. -/
theorem c7_promotion_idempotent (g : Graph) (uid : Nat) (sk : String) (n : Nat)
    (h1 : countIn (uid, sk) g.claims = 1) (h2 : countIn (uid, sk) g.verified = 0) :
    countIn (uid, sk) (promoteN g uid sk (n + 1)).verified = 1 ∧
    countIn (uid, sk) (promoteN g uid sk (n + 1)).claims = 0 := by
  induction n with
  | zero =>
    obtain ⟨hc, hv⟩ := verify_skill_counts g uid sk
    exact ⟨by simpa [promoteN, h1, h2] using hv, by simpa [promoteN] using hc⟩
  | succ m ih =>
    obtain ⟨ihv, ihc⟩ := ih
    obtain ⟨hc, hv⟩ := verify_skill_counts (promoteN g uid sk (m + 1)) uid sk
    refine ⟨?_, by simpa [promoteN] using hc⟩
    show countIn (uid, sk) (verify_skill (promoteN g uid sk (m + 1)) uid sk).verified = 1
    rw [hv, ihv, ihc]

theorem c7_witness :
    countIn (3, "Tailoring") (⟨[3], ["Tailoring"], [(3, "Tailoring")], []⟩ : Graph).claims = 1 ∧
    countIn (3, "Tailoring") (⟨[3], ["Tailoring"], [(3, "Tailoring")], []⟩ : Graph).verified = 0 ∧
    (countIn (3, "Tailoring")
        (promoteN ⟨[3], ["Tailoring"], [(3, "Tailoring")], []⟩ 3 "Tailoring" (1 + 1)).verified = 1 ∧
      countIn (3, "Tailoring")
        (promoteN ⟨[3], ["Tailoring"], [(3, "Tailoring")], []⟩ 3 "Tailoring" (1 + 1)).claims = 0) :=
  ⟨by decide, by decide,
    c7_promotion_idempotent ⟨[3], ["Tailoring"], [(3, "Tailoring")], []⟩ 3 "Tailoring" 1
      (by decide) (by decide)⟩

/-- C6: when the object-store get fails, the run commits the PROCESSING
transition and then the REJECTED transition with exactly the reason string
Failed to retrieve document from storage; the user row is untouched in both
commits and the graph is returned unchanged, so no trust mutation and no
graph mutation occur. -/
theorem c6_storage_failure (v0 : Verification) (u : User) (g : Graph)
    (frags : List String) :
    runJob ⟨some v0, u⟩ g ⟨false, frags⟩ =
      ⟨[⟨some { v0 with status := VerificationStatus.PROCESSING }, u⟩,
        ⟨some { v0 with
                status := VerificationStatus.REJECTED
                rejection_reason := some "Failed to retrieve document from storage" }, u⟩],
        g, RunResult.err "S3 download failed"⟩ := rfl

/-- C10: when the job id matches no verification record, the run returns an
error payload, commits nothing to the relational store, and leaves the graph
unchanged, so no state mutation occurs. -/
theorem c10_missing_record (u : User) (g : Graph) (inp : RunInput) :
    runJob ⟨none, u⟩ g inp = ⟨[], g, RunResult.err "Verification not found"⟩ := rfl

/-- Shape of a run whose object-store fetch succeeds and whose record was
found: the approved and rejected branches spelled out over the dispatched
record. -/
theorem runJob_ok (v0 : Verification) (u : User) (g : Graph) (frags : List String) :
    runJob ⟨some v0, u⟩ g ⟨true, frags⟩ =
      if serialTruthy (dispatchedVer v0 frags) &&
          (rejectionReasons (dispatchedVer v0 frags)).isEmpty then
        ⟨[⟨some { v0 with status := VerificationStatus.PROCESSING }, u⟩,
          ⟨some (verifiedVer (dispatchedVer v0 frags)),
            ledger (adoptName u (dispatchedVer v0 frags)) (verifiedVer (dispatchedVer v0 frags))⟩],
          promoteIfSkill g
            (ledger (adoptName u (dispatchedVer v0 frags))
              (verifiedVer (dispatchedVer v0 frags))).id
            (verifiedVer (dispatchedVer v0 frags)).extracted_skill,
          RunResult.done VerificationStatus.VERIFIED
            (verifiedVer (dispatchedVer v0 frags)).trust_score_delta⟩
      else
        ⟨[⟨some { v0 with status := VerificationStatus.PROCESSING }, u⟩,
          ⟨some (rejectedVer (dispatchedVer v0 frags)), adoptName u (dispatchedVer v0 frags)⟩],
          g,
          RunResult.done VerificationStatus.REJECTED
            (rejectedVer (dispatchedVer v0 frags)).trust_score_delta⟩ := rfl

theorem dispatchedVer_reason (v0 : Verification) (frags : List String) :
    (dispatchedVer v0 frags).rejection_reason = v0.rejection_reason := by
  unfold dispatchedVer parseDispatch
  split_ifs <;> rfl

theorem dispatchedVer_delta (v0 : Verification) (frags : List String) :
    (dispatchedVer v0 frags).trust_score_delta = v0.trust_score_delta := by
  unfold dispatchedVer parseDispatch
  split_ifs <;> rfl

theorem rejectReason_serial :
    rejectReason ["Serial number not found in document"] =
      "Serial number not found in document" := by
  decide

/-- C1: re-invoking the orchestrator on a record that is already terminal is
not a no-op.  A fresh NATIONAL_ID record is verified by the first run, which
raises the trust score from 0 to 10; re-invoking the job on the now-VERIFIED
record re-processes it and raises the score again to 20, so the trust score
differs after one run and after two runs, contradicting the required
terminal-status guard. -/
theorem c1_terminal_rerun_not_noop :
    ((runStep ⟨⟨some (freshVer 7 1 DocumentType.NATIONAL_ID), sampleUser⟩, emptyGraph⟩
        ⟨true, ["ID: 12345678 JOHN MWANGI KARIUKI"]⟩).rel.verification.map
        Verification.status = some VerificationStatus.VERIFIED) ∧
    (runStep ⟨⟨some (freshVer 7 1 DocumentType.NATIONAL_ID), sampleUser⟩, emptyGraph⟩
        ⟨true, ["ID: 12345678 JOHN MWANGI KARIUKI"]⟩).rel.user.trust_score = 10 ∧
    (runStep (runStep ⟨⟨some (freshVer 7 1 DocumentType.NATIONAL_ID), sampleUser⟩, emptyGraph⟩
        ⟨true, ["ID: 12345678 JOHN MWANGI KARIUKI"]⟩)
        ⟨true, ["ID: 12345678 JOHN MWANGI KARIUKI"]⟩).rel.user.trust_score = 20 := by
  decide

/-- C3: the rejection reason recorded for a document with no extracted serial
is the string Serial number not found in document, which does not contain the
claimed issue text Certificate serial number not found; shown on a CERTIFICATE
document whose text contains no serial-shaped token. -/
theorem c3_counterexample :
    ((runStep ⟨⟨some (freshVer 3 1 DocumentType.CERTIFICATE), sampleUser⟩, emptyGraph⟩
        ⟨true, ["BLANK PAGE"]⟩).rel.verification.bind Verification.rejection_reason =
      some "Serial number not found in document") ∧
    containsSub "Certificate serial number not found".data
      "Serial number not found in document".data = false := by
  decide

/-- C3 amended: whenever the parsed record carries no truthy serial, the run
ends with status REJECTED, the rejection reason is exactly the string Serial
number not found in document, the user trust score is unchanged, and the
graph is unchanged. -/
theorem c3_rejected_serial_missing (v0 : Verification) (u : User) (g : Graph)
    (frags : List String)
    (h : serialTruthy (dispatchedVer v0 frags) = false) :
    ((finalVer ⟨some v0, u⟩ (runJob ⟨some v0, u⟩ g ⟨true, frags⟩)).map
        Verification.status = some VerificationStatus.REJECTED) ∧
    ((finalVer ⟨some v0, u⟩ (runJob ⟨some v0, u⟩ g ⟨true, frags⟩)).bind
        Verification.rejection_reason = some "Serial number not found in document") ∧
    (finalRel ⟨some v0, u⟩ (runJob ⟨some v0, u⟩ g ⟨true, frags⟩)).user.trust_score =
      u.trust_score ∧
    (runJob ⟨some v0, u⟩ g ⟨true, frags⟩).graph = g := by
  simp [runJob, h, finalVer, finalRel, rejectedVer, rejectionReasons,
    rejectReason_serial, adoptName_trust]

theorem c3_witness :
    serialTruthy (dispatchedVer (freshVer 4 1 DocumentType.CERTIFICATE) ["BLANK PAGE"]) =
      false ∧
    (((finalVer ⟨some (freshVer 4 1 DocumentType.CERTIFICATE), sampleUser⟩
          (runJob ⟨some (freshVer 4 1 DocumentType.CERTIFICATE), sampleUser⟩ emptyGraph
            ⟨true, ["BLANK PAGE"]⟩)).map
        Verification.status = some VerificationStatus.REJECTED) ∧
      ((finalVer ⟨some (freshVer 4 1 DocumentType.CERTIFICATE), sampleUser⟩
          (runJob ⟨some (freshVer 4 1 DocumentType.CERTIFICATE), sampleUser⟩ emptyGraph
            ⟨true, ["BLANK PAGE"]⟩)).bind
        Verification.rejection_reason = some "Serial number not found in document") ∧
      (finalRel ⟨some (freshVer 4 1 DocumentType.CERTIFICATE), sampleUser⟩
          (runJob ⟨some (freshVer 4 1 DocumentType.CERTIFICATE), sampleUser⟩ emptyGraph
            ⟨true, ["BLANK PAGE"]⟩)).user.trust_score = sampleUser.trust_score ∧
      (runJob ⟨some (freshVer 4 1 DocumentType.CERTIFICATE), sampleUser⟩ emptyGraph
          ⟨true, ["BLANK PAGE"]⟩).graph = emptyGraph) :=
  ⟨by decide,
    c3_rejected_serial_missing (freshVer 4 1 DocumentType.CERTIFICATE) sampleUser emptyGraph
      ["BLANK PAGE"] (by decide)⟩

/-- C4: on the scenario document the claimed name John Kariuki is not a
substring of the parsed name JOHN MWANGI KARIUKI in either direction under
the case-insensitive check of validate_document, so the cross-validator
returns nameMatch false, refuting the claimed nameMatch true. -/
theorem c4_counterexample :
    (validate_document (parse_kenyan_id ["ID: 12345678 JOHN MWANGI KARIUKI"])
        ⟨none, none, none, none⟩ (some "John Kariuki")).name_match = false := by
  decide

/-- C4 amended: the pipeline parses id-number 12345678 and name JOHN MWANGI
KARIUKI from the scenario fragment; the case-insensitive either-direction
substring check of the cross-validator yields nameMatch false for the claimed
name John Kariuki; and the job nevertheless ends VERIFIED with the trust
score increased by 10 and the identity flag set, because the orchestrator
decides on the presence of the extracted id-number alone and never consults
the name match. -/
theorem c4_scenario :
    (parse_kenyan_id ["ID: 12345678 JOHN MWANGI KARIUKI"]).id_number = some "12345678" ∧
    (parse_kenyan_id ["ID: 12345678 JOHN MWANGI KARIUKI"]).full_name =
      some "JOHN MWANGI KARIUKI" ∧
    (validate_document (parse_kenyan_id ["ID: 12345678 JOHN MWANGI KARIUKI"])
        ⟨none, none, none, none⟩ (some "John Kariuki")).name_match = false ∧
    ((runStep ⟨⟨some (freshVer 8 1 DocumentType.NATIONAL_ID),
          ⟨1, some "John Kariuki", 0, false⟩⟩, emptyGraph⟩
        ⟨true, ["ID: 12345678 JOHN MWANGI KARIUKI"]⟩).rel.verification.map
        Verification.status = some VerificationStatus.VERIFIED) ∧
    (runStep ⟨⟨some (freshVer 8 1 DocumentType.NATIONAL_ID),
          ⟨1, some "John Kariuki", 0, false⟩⟩, emptyGraph⟩
        ⟨true, ["ID: 12345678 JOHN MWANGI KARIUKI"]⟩).rel.user.trust_score = 10 ∧
    (runStep ⟨⟨some (freshVer 8 1 DocumentType.NATIONAL_ID),
          ⟨1, some "John Kariuki", 0, false⟩⟩, emptyGraph⟩
        ⟨true, ["ID: 12345678 JOHN MWANGI KARIUKI"]⟩).rel.user.is_verified = true := by
  decide

/-- C9: the orchestrator does not dispatch LICENSE documents to the
certificate parser.  On a LICENSE document whose text parse_certificate would
read a serial from, the run leaves the extracted serial empty and rejects the
record, refuting extraction for all four credential document types. -/
theorem c9_counterexample :
    (parse_certificate ["SERIAL: KNEC/123/2023"]).serial = some "KNEC/123/2023" ∧
    ((runStep ⟨⟨some (freshVer 9 1 DocumentType.LICENSE), sampleUser⟩, emptyGraph⟩
        ⟨true, ["SERIAL: KNEC/123/2023"]⟩).rel.verification.map
        Verification.extracted_serial = some none) ∧
    ((runStep ⟨⟨some (freshVer 9 1 DocumentType.LICENSE), sampleUser⟩, emptyGraph⟩
        ⟨true, ["SERIAL: KNEC/123/2023"]⟩).rel.verification.map
        Verification.status = some VerificationStatus.REJECTED) := by
  decide

/-- C9 amended: only CERTIFICATE and DIPLOMA documents are dispatched to the
certificate-family parser.  For LICENSE and TRANSCRIPT documents the parsing
step changes nothing beyond the status and the stored OCR payload, and in
particular the extracted serial after the whole run is whatever the record
already carried. -/
theorem c9_dispatch (v0 : Verification) (u : User) (g : Graph) (frags : List String)
    (h : v0.document_type = DocumentType.LICENSE ∨
      v0.document_type = DocumentType.TRANSCRIPT) :
    dispatchedVer v0 frags =
      { v0 with status := VerificationStatus.PROCESSING, ocr_data := some frags } ∧
    (finalVer ⟨some v0, u⟩ (runJob ⟨some v0, u⟩ g ⟨true, frags⟩)).map
      Verification.extracted_serial = some v0.extracted_serial := by
  have hd : dispatchedVer v0 frags =
      { v0 with status := VerificationStatus.PROCESSING, ocr_data := some frags } := by
    unfold dispatchedVer parseDispatch
    rcases h with h | h <;> simp [h]
  refine ⟨hd, ?_⟩
  rw [runJob_ok]
  cases hv : serialTruthy (dispatchedVer v0 frags) &&
      (rejectionReasons (dispatchedVer v0 frags)).isEmpty with
  | true => simp [finalVer, finalRel, verifiedVer, hd]
  | false => simp [finalVer, finalRel, rejectedVer, hd]

theorem c9_witness :
    (freshVer 10 1 DocumentType.LICENSE).document_type = DocumentType.LICENSE ∧
    (dispatchedVer (freshVer 10 1 DocumentType.LICENSE) ["SERIAL: KNEC/123/2023"] =
        { freshVer 10 1 DocumentType.LICENSE with
          status := VerificationStatus.PROCESSING
          ocr_data := some ["SERIAL: KNEC/123/2023"] } ∧
      (finalVer ⟨some (freshVer 10 1 DocumentType.LICENSE), sampleUser⟩
          (runJob ⟨some (freshVer 10 1 DocumentType.LICENSE), sampleUser⟩ emptyGraph
            ⟨true, ["SERIAL: KNEC/123/2023"]⟩)).map
        Verification.extracted_serial =
        some (freshVer 10 1 DocumentType.LICENSE).extracted_serial) :=
  ⟨by decide,
    c9_dispatch (freshVer 10 1 DocumentType.LICENSE) sampleUser emptyGraph
      ["SERIAL: KNEC/123/2023"] (Or.inl (by decide))⟩

/-- Every run either leaves the user trust score unchanged, or, exactly when
the run returns VERIFIED, sets it to the old score plus 10 clamped at 100. -/
theorem runStep_trust_cases (st : SysState) (inp : RunInput) :
    ((runStep st inp).rel.user.trust_score = st.rel.user.trust_score ∧
      resultStatus (runJob st.rel st.graph inp).result ≠ some VerificationStatus.VERIFIED) ∨
    ((runStep st inp).rel.user.trust_score = min 100 (st.rel.user.trust_score + 10) ∧
      resultStatus (runJob st.rel st.graph inp).result = some VerificationStatus.VERIFIED) := by
  obtain ⟨⟨over, u⟩, g⟩ := st
  obtain ⟨s3Ok, frags⟩ := inp
  cases over with
  | none => exact Or.inl ⟨rfl, by simp [runJob, resultStatus]⟩
  | some v0 =>
    cases s3Ok with
    | false => exact Or.inl ⟨rfl, by simp [runJob, resultStatus]⟩
    | true =>
      simp only [runStep, runJob_ok]
      cases hv : serialTruthy (dispatchedVer v0 frags) &&
          (rejectionReasons (dispatchedVer v0 frags)).isEmpty with
      | true =>
        refine Or.inr ⟨?_, by simp [resultStatus]⟩
        simp [finalRel, ledger_trust, adoptName_trust]
      | false =>
        refine Or.inl ⟨?_, by simp [resultStatus]⟩
        simp [finalRel, adoptName_trust]

theorem runStep_trust_bounds (st : SysState) (inp : RunInput)
    (h0 : 0 ≤ st.rel.user.trust_score) (h1 : st.rel.user.trust_score ≤ 100) :
    0 ≤ (runStep st inp).rel.user.trust_score ∧
    (runStep st inp).rel.user.trust_score ≤ 100 ∧
    st.rel.user.trust_score ≤ (runStep st inp).rel.user.trust_score := by
  rcases runStep_trust_cases st inp with ⟨he, _⟩ | ⟨he, _⟩ <;> rw [he]
  · exact ⟨h0, h1, le_refl _⟩
  · rw [min_def]
    split <;> constructor <;> omega

theorem runSeq_trust_bounds (inps : List RunInput) (st : SysState)
    (h0 : 0 ≤ st.rel.user.trust_score) (h1 : st.rel.user.trust_score ≤ 100) :
    0 ≤ (runSeq st inps).rel.user.trust_score ∧
    (runSeq st inps).rel.user.trust_score ≤ 100 ∧
    st.rel.user.trust_score ≤ (runSeq st inps).rel.user.trust_score := by
  induction inps generalizing st with
  | nil => exact ⟨h0, h1, le_refl _⟩
  | cons i t ih =>
    obtain ⟨a, b, c⟩ := runStep_trust_bounds st i h0 h1
    obtain ⟨d, e, f⟩ := ih (runStep st i) a b
    exact ⟨d, e, le_trans c f⟩

/-- C5: starting from a trust score within bounds, any sequence of runs keeps
the score within 0 and 100 and never decreases it; a single run either leaves
the score unchanged or sets it to the old score plus exactly 10 clamped at
100, and it performs the latter whenever the run reports VERIFIED. -/
theorem c5_trust_bounds (st : SysState) (inps : List RunInput) (inp : RunInput)
    (h0 : 0 ≤ st.rel.user.trust_score) (h1 : st.rel.user.trust_score ≤ 100) :
    (0 ≤ (runSeq st inps).rel.user.trust_score ∧
      (runSeq st inps).rel.user.trust_score ≤ 100 ∧
      st.rel.user.trust_score ≤ (runSeq st inps).rel.user.trust_score) ∧
    ((runStep st inp).rel.user.trust_score = st.rel.user.trust_score ∨
      (runStep st inp).rel.user.trust_score = min 100 (st.rel.user.trust_score + 10)) ∧
    (resultStatus (runJob st.rel st.graph inp).result = some VerificationStatus.VERIFIED →
      (runStep st inp).rel.user.trust_score = min 100 (st.rel.user.trust_score + 10)) := by
  refine ⟨runSeq_trust_bounds inps st h0 h1, ?_, ?_⟩
  · rcases runStep_trust_cases st inp with ⟨he, _⟩ | ⟨he, _⟩
    · exact Or.inl he
    · exact Or.inr he
  · intro hres
    rcases runStep_trust_cases st inp with ⟨_, hne⟩ | ⟨he, _⟩
    · exact absurd hres hne
    · exact he

theorem c5_witness :
    (0 ≤ (⟨⟨some (freshVer 11 1 DocumentType.NATIONAL_ID), sampleUser⟩, emptyGraph⟩ :
        SysState).rel.user.trust_score ∧
      (⟨⟨some (freshVer 11 1 DocumentType.NATIONAL_ID), sampleUser⟩, emptyGraph⟩ :
        SysState).rel.user.trust_score ≤ 100) ∧
    ((0 ≤ (runSeq ⟨⟨some (freshVer 11 1 DocumentType.NATIONAL_ID), sampleUser⟩, emptyGraph⟩
          [⟨true, ["ID: 12345678 JOHN MWANGI KARIUKI"]⟩, ⟨false, []⟩]).rel.user.trust_score ∧
        (runSeq ⟨⟨some (freshVer 11 1 DocumentType.NATIONAL_ID), sampleUser⟩, emptyGraph⟩
          [⟨true, ["ID: 12345678 JOHN MWANGI KARIUKI"]⟩, ⟨false, []⟩]).rel.user.trust_score ≤
          100 ∧
        (⟨⟨some (freshVer 11 1 DocumentType.NATIONAL_ID), sampleUser⟩, emptyGraph⟩ :
          SysState).rel.user.trust_score ≤
          (runSeq ⟨⟨some (freshVer 11 1 DocumentType.NATIONAL_ID), sampleUser⟩, emptyGraph⟩
            [⟨true, ["ID: 12345678 JOHN MWANGI KARIUKI"]⟩, ⟨false, []⟩]).rel.user.trust_score) ∧
      ((runStep ⟨⟨some (freshVer 11 1 DocumentType.NATIONAL_ID), sampleUser⟩, emptyGraph⟩
          ⟨true, ["ID: 12345678 JOHN MWANGI KARIUKI"]⟩).rel.user.trust_score =
          (⟨⟨some (freshVer 11 1 DocumentType.NATIONAL_ID), sampleUser⟩, emptyGraph⟩ :
            SysState).rel.user.trust_score ∨
        (runStep ⟨⟨some (freshVer 11 1 DocumentType.NATIONAL_ID), sampleUser⟩, emptyGraph⟩
          ⟨true, ["ID: 12345678 JOHN MWANGI KARIUKI"]⟩).rel.user.trust_score =
          min 100
            ((⟨⟨some (freshVer 11 1 DocumentType.NATIONAL_ID), sampleUser⟩, emptyGraph⟩ :
              SysState).rel.user.trust_score + 10)) ∧
      (resultStatus
          (runJob (⟨⟨some (freshVer 11 1 DocumentType.NATIONAL_ID), sampleUser⟩, emptyGraph⟩ :
              SysState).rel
            (⟨⟨some (freshVer 11 1 DocumentType.NATIONAL_ID), sampleUser⟩, emptyGraph⟩ :
              SysState).graph
            ⟨true, ["ID: 12345678 JOHN MWANGI KARIUKI"]⟩).result =
          some VerificationStatus.VERIFIED →
        (runStep ⟨⟨some (freshVer 11 1 DocumentType.NATIONAL_ID), sampleUser⟩, emptyGraph⟩
          ⟨true, ["ID: 12345678 JOHN MWANGI KARIUKI"]⟩).rel.user.trust_score =
          min 100
            ((⟨⟨some (freshVer 11 1 DocumentType.NATIONAL_ID), sampleUser⟩, emptyGraph⟩ :
              SysState).rel.user.trust_score + 10))) :=
  ⟨⟨by decide, by decide⟩,
    c5_trust_bounds ⟨⟨some (freshVer 11 1 DocumentType.NATIONAL_ID), sampleUser⟩, emptyGraph⟩
      [⟨true, ["ID: 12345678 JOHN MWANGI KARIUKI"]⟩, ⟨false, []⟩]
      ⟨true, ["ID: 12345678 JOHN MWANGI KARIUKI"]⟩ (by decide) (by decide)⟩

/-- C8: the record-level invariant fails across re-runs.  A record that a
previous run left VERIFIED with trust delta 10 is re-run while the object
store is unreachable; the run ends with status REJECTED while the stored
trust delta is still 10, so a nonzero delta coexists with a non-VERIFIED
status. -/
theorem c8_counterexample :
    ((finalVer
        ⟨some { freshVer 5 1 DocumentType.CERTIFICATE with
            status := VerificationStatus.VERIFIED, trust_score_delta := 10 }, sampleUser⟩
        (runJob
          ⟨some { freshVer 5 1 DocumentType.CERTIFICATE with
              status := VerificationStatus.VERIFIED, trust_score_delta := 10 }, sampleUser⟩
          emptyGraph ⟨false, []⟩)).map Verification.status =
      some VerificationStatus.REJECTED) ∧
    ((finalVer
        ⟨some { freshVer 5 1 DocumentType.CERTIFICATE with
            status := VerificationStatus.VERIFIED, trust_score_delta := 10 }, sampleUser⟩
        (runJob
          ⟨some { freshVer 5 1 DocumentType.CERTIFICATE with
              status := VerificationStatus.VERIFIED, trust_score_delta := 10 }, sampleUser⟩
          emptyGraph ⟨false, []⟩)).map Verification.trust_score_delta = some 10) := by
  decide

/-- C8 amended: for a run on a record whose stored trust delta is zero and
whose rejection reason is empty, as the upload collaborator creates records,
the record after the run has a nonzero trust delta only when its status is
VERIFIED and a truthy rejection reason only when its status is REJECTED. -/
theorem c8_fresh_run_invariant (v0 : Verification) (u : User) (g : Graph) (inp : RunInput)
    (hd : v0.trust_score_delta = 0) (hr : v0.rejection_reason = none) :
    (((finalVer ⟨some v0, u⟩ (runJob ⟨some v0, u⟩ g inp)).getD v0).trust_score_delta ≠ 0 →
      ((finalVer ⟨some v0, u⟩ (runJob ⟨some v0, u⟩ g inp)).getD v0).status =
        VerificationStatus.VERIFIED) ∧
    (truthy ((finalVer ⟨some v0, u⟩ (runJob ⟨some v0, u⟩ g inp)).getD v0).rejection_reason =
        true →
      ((finalVer ⟨some v0, u⟩ (runJob ⟨some v0, u⟩ g inp)).getD v0).status =
        VerificationStatus.REJECTED) := by
  obtain ⟨s3Ok, frags⟩ := inp
  cases s3Ok with
  | false => constructor <;> simp [runJob, finalVer, finalRel, hd]
  | true =>
    rw [runJob_ok]
    cases hv : serialTruthy (dispatchedVer v0 frags) &&
        (rejectionReasons (dispatchedVer v0 frags)).isEmpty with
    | true =>
      constructor <;>
        simp [finalVer, finalRel, verifiedVer, dispatchedVer_reason, hr, truthy]
    | false =>
      constructor <;>
        simp [finalVer, finalRel, rejectedVer, dispatchedVer_delta, hd]

theorem c8_witness :
    (freshVer 6 1 DocumentType.CERTIFICATE).trust_score_delta = 0 ∧
    (freshVer 6 1 DocumentType.CERTIFICATE).rejection_reason = none ∧
    ((((finalVer ⟨some (freshVer 6 1 DocumentType.CERTIFICATE), sampleUser⟩
            (runJob ⟨some (freshVer 6 1 DocumentType.CERTIFICATE), sampleUser⟩ emptyGraph
              ⟨false, []⟩)).getD
          (freshVer 6 1 DocumentType.CERTIFICATE)).trust_score_delta ≠ 0 →
        ((finalVer ⟨some (freshVer 6 1 DocumentType.CERTIFICATE), sampleUser⟩
            (runJob ⟨some (freshVer 6 1 DocumentType.CERTIFICATE), sampleUser⟩ emptyGraph
              ⟨false, []⟩)).getD
          (freshVer 6 1 DocumentType.CERTIFICATE)).status = VerificationStatus.VERIFIED) ∧
      (truthy
          ((finalVer ⟨some (freshVer 6 1 DocumentType.CERTIFICATE), sampleUser⟩
              (runJob ⟨some (freshVer 6 1 DocumentType.CERTIFICATE), sampleUser⟩ emptyGraph
                ⟨false, []⟩)).getD
            (freshVer 6 1 DocumentType.CERTIFICATE)).rejection_reason = true →
        ((finalVer ⟨some (freshVer 6 1 DocumentType.CERTIFICATE), sampleUser⟩
            (runJob ⟨some (freshVer 6 1 DocumentType.CERTIFICATE), sampleUser⟩ emptyGraph
              ⟨false, []⟩)).getD
          (freshVer 6 1 DocumentType.CERTIFICATE)).status = VerificationStatus.REJECTED)) :=
  ⟨by decide, by decide,
    c8_fresh_run_invariant (freshVer 6 1 DocumentType.CERTIFICATE) sampleUser emptyGraph
      ⟨false, []⟩ (by decide) (by decide)⟩

end Talanta
